import Mathlib

/- Verification development for the hybrid-thinking orchestration platform:
   a shallow embedding of the circuit breaker, the AES-256-GCM encryption
   utilities, the token vault service, and the workflow engine, together
   with theorems settling the specification claims against this embedding.

   Conventions used throughout:
   * machine-level byte strings (hex strings / Buffers in the source) are
     modelled as `List Nat` with every element `< 256`;
   * JavaScript `Map` / object state is modelled as association lists or
     explicit structures, preserving insertion-order semantics;
   * wall-clock times (`Date.now()`) are explicit `Nat` parameters;
   * external library primitives (Node `crypto`) are modelled at their
     contract level, as documented at their definitions. -/

/-! ## Circuit breaker

Embedded from the error-recovery section of the workflow-engine source:
`checkCircuitBreaker`, `recordSuccess`, `recordFailure` operating on the
per-key `circuitState` map entry.  The map entry for one key is an
`Option Circuit` (`none` = no entry created yet). -/

/-- Breaker states.  The source literals are `'closed' | 'open' | 'half-open'`;
`open` is a Lean keyword, so the middle state is spelled `opened`. -/
inductive CBState
  | closed
  | opened
  | halfOpen
deriving DecidableEq, Repr

/-- One entry of the source `circuitState` map:
`{state, failureCount, lastFailure, nextAttempt}`. -/
structure Circuit where
  state : CBState
  failureCount : Nat
  lastFailure : Nat
  nextAttempt : Nat
deriving DecidableEq, Repr

/-- Source `recordSuccess(providerId)`: resets the circuit to closed with a
zero failure count, but only when the current state is half-open or open;
a missing entry, or a closed entry, is left untouched. -/
def recordSuccess : Option Circuit → Option Circuit
  | none => none
  | some c =>
    if c.state = .halfOpen ∨ c.state = .opened then
      some { c with state := .closed, failureCount := 0 }
    else
      some c

/-- Source `recordFailure(providerId)`: lazily creates a closed zero-count
entry, increments `failureCount`, stamps `lastFailure`, and on reaching 3
failures opens the circuit with `nextAttempt = now + 30000`. -/
def recordFailure (now : Nat) (s : Option Circuit) : Option Circuit :=
  let c0 := s.getD { state := .closed, failureCount := 0, lastFailure := 0, nextAttempt := 0 }
  let c1 := { c0 with failureCount := c0.failureCount + 1, lastFailure := now }
  if 3 ≤ c1.failureCount then
    some { c1 with state := .opened, nextAttempt := now + 30000 }
  else
    some c1

/-- Source `checkCircuitBreaker(providerId)`: returns whether the request is
allowed, and (because the source mutates the map entry in place) the updated
entry — an open circuit whose cool-down has elapsed moves to half-open. -/
def checkCircuitBreaker (now : Nat) : Option Circuit → Bool × Option Circuit
  | none => (true, none)
  | some c =>
    match c.state with
    | .closed => (true, some c)
    | .opened =>
      if c.nextAttempt ≤ now then (true, some { c with state := .halfOpen })
      else (false, some c)
    | .halfOpen => (true, some c)

/-- States of one circuit-state map entry reachable by any interleaving of
the three source operations, starting from no entry. -/
inductive CBReach : Option Circuit → Prop
  | init : CBReach none
  | fail (t : Nat) {s : Option Circuit} : CBReach s → CBReach (recordFailure t s)
  | succ {s : Option Circuit} : CBReach s → CBReach (recordSuccess s)
  | check (t : Nat) {s : Option Circuit} : CBReach s → CBReach (checkCircuitBreaker t s).2

/-! ## AES-256-GCM encryption utilities

Embedded from `src/services/api-gateway/src/utils/encryption.ts`.  Hex
strings and Buffers are modelled as `List Nat` byte strings (hex encoding
of a byte string is a bijection, so nothing is lost); `TAG_LENGTH * 2` hex
characters correspond to `TAG_LENGTH` bytes.

The Node `crypto` primitives are external library calls, so they are
modelled at their contract level as an ideal authenticated cipher:
AES-256-GCM in counter mode becomes an XOR keystream (encryption and
decryption are the same XOR, exactly as in CTR mode), and the GCM
authentication tag becomes a collision-free value drawn from a space
disjoint from 16-byte strings (`2 ^ 128 + ...`), reflecting that a tag
forged from unrelated bytes passes GCM verification only with negligible
probability.  PBKDF2 and the legacy SHA-256 key derivation are modelled as
distinct key-material constructors, since the repository code only passes
derived keys onward to the cipher. -/

/-- Key material fed to the cipher: `deriveKey` (PBKDF2 from password and
salt, the new scheme) or the legacy `sha256(password)`-derived key used by
`decrypt` when no salt is supplied. -/
inductive KeyMaterial
  | pbkdf2Key (password : String) (salt : Nat)
  | sha256Key (password : String)
deriving DecidableEq, Repr

/-- Injective numeric code of a string (characters are below 1114112). -/
def strCode (s : String) : Nat :=
  s.data.foldl (fun a ch => a * 1114112 + ch.toNat + 1) 0

/-- Numeric code of key material, used by the cipher model. -/
def keyCode : KeyMaterial → Nat
  | .pbkdf2Key p s => Nat.pair 0 (Nat.pair (strCode p) s)
  | .sha256Key p => Nat.pair 1 (strCode p)

/-- Keystream byte `i` of the modelled CTR-mode cipher. -/
def keystreamByte (k : KeyMaterial) (iv i : Nat) : Nat :=
  (keyCode k + iv + i) % 256

/-- XOR a byte string against the keystream starting at position `i`:
this is both GCM encryption and GCM decryption of the data portion. -/
def xorStream (k : KeyMaterial) (iv : Nat) : Nat → List Nat → List Nat
  | _, [] => []
  | i, b :: bs => (b ^^^ keystreamByte k iv i) :: xorStream k iv (i + 1) bs

/-- Injective numeric code of a byte string (digits 1..256 in base 257, so
no trailing-zero ambiguity). -/
def encodeBytes : List Nat → Nat
  | [] => 0
  | b :: bs => (b % 256) + 1 + 257 * encodeBytes bs

/-- Little-endian numeric value of a byte string; for 16 bytes below 256
this is below `2 ^ 128`. -/
def bytesToNat : List Nat → Nat
  | [] => 0
  | b :: bs => b + 256 * bytesToNat bs

/-- Ideal GCM authentication tag over (key, iv, ciphertext).  The
`2 ^ 128 +` offset keeps honest tags outside the value space of 16-byte
strings, which is the ideal-cipher reading of "a forged tag never
verifies". -/
def gcmTag (k : KeyMaterial) (iv : Nat) (c : List Nat) : Nat :=
  2 ^ 128 + Nat.pair (keyCode k) (Nat.pair iv (encodeBytes c))

/-- Modelled `decipher.update/final` with `setAuthTag`: the data is
returned only if the supplied tag verifies; a mismatch is the hard error
Node raises from `decipher.final()`. -/
def gcmDecrypt (k : KeyMaterial) (iv : Nat) (c : List Nat) (tag : Nat) :
    Except String (List Nat) :=
  if tag = gcmTag k iv c then .ok (xorStream k iv 0 c)
  else .error "Unsupported state or unable to authenticate data"

/-- Source constant `TAG_LENGTH = 16` (bytes). -/
def TAG_LENGTH : Nat := 16

/-- Source `deriveKey(password, salt)`: PBKDF2 key derivation. -/
def deriveKey (password : String) (salt : Nat) : KeyMaterial :=
  .pbkdf2Key password salt

/-- Return shape of the source `encrypt`:
`{encryptedData, iv, salt, tag}`, all hex strings in the source. -/
structure EncryptResult where
  encryptedData : List Nat
  iv : Nat
  salt : Nat
  tag : Nat
deriving DecidableEq, Repr

/-- Source `encrypt(plaintext, passwordKey)`: derives a key from the
password and a fresh random salt, encrypts under a fresh random IV, and
returns ciphertext, iv, salt and auth tag.  The two `crypto.randomBytes`
draws are made explicit as the `salt` and `iv` parameters. -/
def encrypt (plaintext : List Nat) (passwordKey : String) (salt iv : Nat) :
    EncryptResult :=
  let key := deriveKey passwordKey salt
  let c := xorStream key iv 0 plaintext
  { encryptedData := c, iv := iv, salt := salt, tag := gcmTag key iv c }

/-- Source `decrypt(encryptedDataHex, passwordKey, ivHex, saltHex?, tagHex?)`.
With a salt, the new scheme: PBKDF2 key, tag required (`Buffer.from` of a
missing tag throws).  Without a salt, the legacy fallback: the key is
derived from `sha256(password)` instead, and when no tag is supplied the
last `TAG_LENGTH` bytes of the ciphertext are peeled off and used as the
tag, provided the ciphertext is longer than that; otherwise it throws. -/
def decrypt (encryptedData : List Nat) (passwordKey : String) (iv : Nat)
    (salt : Option Nat) (tag : Option Nat) : Except String (List Nat) :=
  match salt with
  | none =>
    let key := KeyMaterial.sha256Key passwordKey
    match tag with
    | none =>
      if TAG_LENGTH < encryptedData.length then
        let cut := encryptedData.length - TAG_LENGTH
        gcmDecrypt key iv (encryptedData.take cut)
          (bytesToNat (encryptedData.drop cut))
      else .error "Authentication tag is required for GCM decryption."
    | some t => gcmDecrypt key iv encryptedData t
  | some s =>
    let key := deriveKey passwordKey s
    match tag with
    | none => .error "Authentication tag is required for GCM decryption."
    | some t => gcmDecrypt key iv encryptedData t

/-! ## Token vault service

Embedded from the api-gateway `TokenVaultService` (the implementation that
uses `utils/encryption`).  The sqlite `TokenRecords` table is modelled as a
`List StoredTokenData` in insertion order: `INSERT` appends, `db.get` of a
`SELECT` without `ORDER BY` returns the first matching row, in insertion
order.  `JSON.stringify`/`JSON.parse` of the credentials object is a
bijection onto its image, so the serialized credentials are modelled
directly as the byte string of the JSON text.  `uuidv4()` and `new Date()`
are made explicit as the `newId`/`now` parameters. -/

/-- Row shape of the service: `StoredTokenData`.  Note that, like the
`INSERT` in `storeToken`, it has no salt and no tag column. -/
structure StoredTokenData where
  id : String
  userId : String
  providerId : String
  credentialType : String
  encryptedCredentials : List Nat
  iv : Nat
  isValid : Bool
  lastChecked : Option Nat
  createdAt : Nat
  updatedAt : Nat
deriving DecidableEq, Repr

/-- Source `storeToken`: encrypts the serialized credentials and inserts a
row.  Faithful to `const { encryptedData, iv } = encrypt(...)`: only the
ciphertext and the IV are kept — the salt and the tag that `encrypt`
returned are discarded and never stored. -/
def storeToken (userId providerId credentialType : String)
    (credentials : List Nat) (encryptionKey : String)
    (newId : String) (salt iv now : Nat)
    (db : List StoredTokenData) : List StoredTokenData :=
  let e := encrypt credentials encryptionKey salt iv
  db ++ [{ id := newId, userId := userId, providerId := providerId,
           credentialType := credentialType,
           encryptedCredentials := e.encryptedData, iv := e.iv,
           isValid := true, lastChecked := none,
           createdAt := now, updatedAt := now }]

/-- Source `getValidToken`: selects the first valid row for
(userId, providerId), then calls `decrypt(row.encryptedCredentials,
encryptionKey, row.iv)` — with no salt and no tag, exactly as in the
source.  A missing row yields `null` (`ok none`); any error thrown while
decrypting or parsing is caught and rethrown as the fixed message. -/
def getValidToken (userId providerId encryptionKey : String)
    (db : List StoredTokenData) : Except String (Option (List Nat)) :=
  match db.find? (fun r =>
      r.userId == userId && r.providerId == providerId && r.isValid) with
  | none => .ok none
  | some row =>
    match decrypt row.encryptedCredentials encryptionKey row.iv none none with
    | .ok pt => .ok (some pt)
    | .error _ => .error "Failed to retrieve or decrypt token."

/-- Metadata projection returned by `listTokens`: exactly the columns of
its `SELECT`, no `encryptedCredentials` and no `iv`. -/
structure TokenMetadata where
  id : String
  userId : String
  providerId : String
  credentialType : String
  isValid : Bool
  lastChecked : Option Nat
  createdAt : Nat
  updatedAt : Nat
deriving DecidableEq, Repr

/-- Column projection used by `listTokens`. -/
def toTokenMetadata (r : StoredTokenData) : TokenMetadata :=
  { id := r.id, userId := r.userId, providerId := r.providerId,
    credentialType := r.credentialType, isValid := r.isValid,
    lastChecked := r.lastChecked, createdAt := r.createdAt,
    updatedAt := r.updatedAt }

/-- Source `listTokens(userId, encryptionKey)`: selects the metadata
columns of the rows of this user and maps them to plain objects; the
`encryptionKey` parameter is never used and nothing is decrypted. -/
def listTokens (userId encryptionKey : String) (db : List StoredTokenData) :
    List TokenMetadata :=
  (db.filter (fun r => r.userId == userId)).map toTokenMetadata

/-- Byte flip used for the tamper scenario: replace byte `i` of the stored
ciphertext of a row. -/
def tamperByte (i b2 : Nat) (r : StoredTokenData) : StoredTokenData :=
  { r with encryptedCredentials := r.encryptedCredentials.set i b2 }

/-! ## Workflow engine

Embedded from the workflow-engine source: `runHybridPrompt`,
`fanOutToModels`, `invokeModel`, `handleModelError`, `startSynthesis`,
`shouldFailJob` and the static fallback table.  Modelling decisions:

* The adapter lookup, the vault token fetch and `adapter.sendPrompt` are
  one external call chain per model id; the `oracle` parameter gives its
  outcome (a thrown error anywhere in `invokeModel` propagates to the
  `catch`/`handleModelError` handler exactly as in the source).
* JavaScript objects (`context.results`) are association lists in
  insertion order: assignment to a present key updates it in place,
  assignment to a new key appends (`objSet`).
* A prompt job has no workflow, so `workflowDef` is `null`: the parallel
  branch is taken (`workflowDef?.stages.generate.parallel !== false`), the
  synthesis model is the default `"openai:gpt-4"`, and
  `criticalModels` is empty — the driver passes `[]`.
* In the parallel branch each model's settlement handler (result write, or
  `handleModelError` including its fallback attempt) runs when the event
  loop schedules it; the `order` parameter makes that schedule explicit as
  the order in which the per-model handlers complete, over the requested
  models.
* The job promise is settled by the first `resolveSynth`/`rejectSynth`
  while the `inFlightJobs` entry exists; `settled` records the value the
  caller receives — `resolve(contextToJobState(context))` snapshots the
  context at resolution time.
* `promptLogInserted` records the unconditional `INSERT INTO PromptLogs`
  performed before the fan-out starts. -/

/-- Adapter result object: `{content, provider, model}`. -/
structure ModelResponse where
  content : String
  provider : String
  model : String
deriving DecidableEq, Repr

/-- One slot of `context.results`: `null`, a `ModelResponse`, or an
`{error}` object. -/
inductive SlotResult
  | pending
  | ok (r : ModelResponse)
  | err (msg : String)
deriving DecidableEq, Repr

/-- Job status values of the execution context. -/
inductive JobStatus
  | pending
  | generating
  | synthesizing
  | completed
  | failed
deriving DecidableEq, Repr

/-- JavaScript object assignment on a string-keyed object in insertion
order: update an existing key in place, append a new key. -/
def objSet {α : Type} (m : List (String × α)) (k : String) (v : α) :
    List (String × α) :=
  match m with
  | [] => [(k, v)]
  | (k2, v2) :: rest =>
    if k2 == k then (k2, v) :: rest else (k2, v2) :: objSet rest k v

/-- Source `ExecutionContext`, restricted to the fields a prompt job uses
(`workflowName` is absent for `runHybridPrompt` jobs, `variables` and
`metadata` never influence the control flow modelled here). -/
structure ExecutionContext where
  jobId : String
  userId : String
  promptText : String
  requestedModels : List String
  results : List (String × SlotResult)
  synthesisInput : List (String × String)
  synthesisResult : Option ModelResponse
  status : JobStatus
  errorInfo : Option String
deriving DecidableEq, Repr

deriving instance DecidableEq for Except

/-- Engine state for one job: the mutable context, whether the
`inFlightJobs` entry still exists, the settlement of the job promise, and
whether the `PromptLogs` row was inserted. -/
structure EngineState where
  ctx : ExecutionContext
  inFlight : Bool
  settled : Option (Except String ExecutionContext)
  promptLogInserted : Bool
deriving DecidableEq, Repr

/-- Source `getFallbackModel` over the static `modelFallbacks` table. -/
def getFallbackModel : String → Option String
  | "openai:gpt-4" => some "openai:gpt-3.5-turbo"
  | "anthropic:claude-sonnet" => some "anthropic:claude-instant"
  | "browser:chatgpt" => some "openai:gpt-3.5-turbo"
  | _ => none

/-- Source `resolveSynth` closure: only while the `inFlightJobs` entry
exists — it marks the context completed, resolves the job promise with the
context snapshot, and deletes the entry. -/
def resolveSynth (st : EngineState) (result : ModelResponse) : EngineState :=
  if st.inFlight then
    let ctx := { st.ctx with synthesisResult := some result,
                             status := JobStatus.completed }
    { st with ctx := ctx, settled := some (.ok ctx), inFlight := false }
  else st

/-- Source `rejectSynth` closure: only while the `inFlightJobs` entry
exists — it marks the context failed, rejects the job promise with the
error, and deletes the entry. -/
def rejectSynth (st : EngineState) (msg : String) : EngineState :=
  if st.inFlight then
    let ctx := { st.ctx with status := JobStatus.failed, errorInfo := some msg }
    { st with ctx := ctx, settled := some (.error msg), inFlight := false }
  else st

/-- Source `invokeModel`: runs the external call chain for `modelId` and
on success writes the response into `context.results[modelId]`; on an
error nothing is written and the error propagates to the caller. -/
def invokeModel (oracle : String → Except String ModelResponse)
    (st : EngineState) (modelId : String) : Except String EngineState :=
  match oracle modelId with
  | .error e => .error e
  | .ok resp =>
    .ok { st with ctx := { st.ctx with
            results := objSet st.ctx.results modelId (.ok resp) } }

/-- Source check `Object.values(context.results).every(r => r !== null)`. -/
def allCompleted (ctx : ExecutionContext) : Bool :=
  ctx.results.all (fun kv => kv.2 != SlotResult.pending)

/-- Source `shouldFailJob`: fail if the failed model is critical for the
workflow, or if no result so far is successful.  A prompt job has no
workflow, so its `criticalModels` list is empty. -/
def shouldFailJob (criticalModels : List String) (ctx : ExecutionContext)
    (failedModelId : String) : Bool :=
  if criticalModels.contains failedModelId then
    true
  else
    let hasSuccessfulResults := ctx.results.any (fun kv =>
      match kv.2 with | .ok _ => true | _ => false)
    !hasSuccessfulResults

/-- Source `startSynthesis`: marks the context synthesizing, builds
`synthesisInput` from the successful slots only, invokes the synthesis
model once (no fallback), and settles the job promise through
`resolveSynth`/`rejectSynth`. -/
def startSynthesis (oracle : String → Except String ModelResponse)
    (synthesisModelId : String) (st : EngineState) : EngineState :=
  let ctx1 := { st.ctx with status := JobStatus.synthesizing }
  let successes := ctx1.results.filterMap (fun kv =>
    match kv.2 with | .ok r => some (kv.1, r.content) | _ => none)
  let ctx2 := { ctx1 with synthesisInput := successes }
  let st2 := { st with ctx := ctx2 }
  match oracle synthesisModelId with
  | .ok out => resolveSynth st2 out
  | .error e => rejectSynth st2 e

/-- Tail of source `handleModelError` after the error slot is recorded:
reject the whole job if `shouldFailJob` says so (the message is built with
the "Critical model" text even when the model is not critical), otherwise
start synthesis if every slot is terminal. -/
def afterError (oracle : String → Except String ModelResponse)
    (criticalModels : List String) (st : EngineState)
    (modelId errMsg : String) : EngineState :=
  if shouldFailJob criticalModels st.ctx modelId then
    rejectSynth st ("Critical model " ++ modelId ++ " failed: " ++ errMsg)
  else if allCompleted st.ctx then
    startSynthesis oracle "openai:gpt-4" st
  else st

/-- Source `handleModelError`: try the fallback model if the table has
one — on fallback success it returns early (`return;`), leaving the
primary slot untouched; on fallback failure the primary slot records the
combined message; with no fallback the primary slot records the error.
Then the `shouldFailJob`/`allCompleted` tail runs. -/
def handleModelError (oracle : String → Except String ModelResponse)
    (criticalModels : List String) (st : EngineState)
    (modelId errMsg : String) : EngineState :=
  match getFallbackModel modelId with
  | some fallbackModelId =>
    match invokeModel oracle st fallbackModelId with
    | .ok st2 => st2
    | .error fe =>
      let st2 := { st with ctx := { st.ctx with
          results := objSet st.ctx.results modelId
            (.err (errMsg ++ " (Fallback also failed: " ++ fe ++ ")")) } }
      afterError oracle criticalModels st2 modelId errMsg
  | none =>
    let st2 := { st with ctx := { st.ctx with
        results := objSet st.ctx.results modelId (.err errMsg) } }
    afterError oracle criticalModels st2 modelId errMsg

/-- One settlement step of the parallel fan-out:
`invokeModel(...).catch(error => handleModelError(...))`. -/
def processModel (oracle : String → Except String ModelResponse)
    (criticalModels : List String) (st : EngineState) (modelId : String) :
    EngineState :=
  match invokeModel oracle st modelId with
  | .ok st2 => st2
  | .error e => handleModelError oracle criticalModels st modelId e

/-- Source `fanOutToModels` for a prompt job (parallel branch): status
moves to generating, every requested model's settlement handler runs in
schedule order, and after `Promise.all` the all-terminal check may start
synthesis once more. -/
def fanOutToModels (oracle : String → Except String ModelResponse)
    (criticalModels : List String) (st : EngineState)
    (order : List String) : EngineState :=
  let st1 := { st with ctx := { st.ctx with status := JobStatus.generating } }
  let st2 := order.foldl (processModel oracle criticalModels) st1
  if allCompleted st2.ctx then startSynthesis oracle "openai:gpt-4" st2 else st2

/-- Source `runHybridPrompt`: creates the context with every requested
model's slot initialized to `null`, inserts the `PromptLogs` row, registers
the job promise, and starts the fan-out.  There is no validation of
`promptText` or `requestedModels` anywhere in the body.  `generateUUID()`
is the explicit `newJobId`; `order` is the fan-out schedule. -/
def runHybridPrompt (oracle : String → Except String ModelResponse)
    (userId promptText : String) (requestedModels : List String)
    (order : List String) (newJobId : String) : EngineState :=
  let ctx : ExecutionContext := {
    jobId := newJobId, userId := userId, promptText := promptText,
    requestedModels := requestedModels,
    results := requestedModels.foldl (fun m mid => objSet m mid .pending) [],
    synthesisInput := [], synthesisResult := none,
    status := JobStatus.pending, errorInfo := none }
  let st : EngineState := { ctx := ctx, inFlight := true, settled := none,
                            promptLogInserted := true }
  fanOutToModels oracle [] st order

/-- Oracle for the C2 scenario: the requested browser model fails, its
fallback succeeds. -/
def c2Oracle : String → Except String ModelResponse
  | "browser:chatgpt" => .error "provider down"
  | "openai:gpt-3.5-turbo" => .ok ⟨"fallback answer", "openai", "gpt-3.5-turbo"⟩
  | _ => .error "no adapter"

/-- Oracle for the C3 scenario: two models succeed, one fails and its
fallback also fails, the synthesis model succeeds. -/
def c3Oracle : String → Except String ModelResponse
  | "modelA" => .ok ⟨"alpha", "provA", "modelA"⟩
  | "modelC" => .ok ⟨"gamma", "provC", "modelC"⟩
  | "anthropic:claude-sonnet" => .error "boom"
  | "anthropic:claude-instant" => .error "fallback boom"
  | "openai:gpt-4" => .ok ⟨"synthesis", "openai", "gpt-4"⟩
  | _ => .error "no adapter"

/-- Oracle for the C6 scenario: only the default synthesis model answers. -/
def c6Oracle : String → Except String ModelResponse
  | "openai:gpt-4" => .ok ⟨"synthesis of nothing", "openai", "gpt-4"⟩
  | _ => .error "no adapter"

/-! ## Refresh de-duplication

Embedded from the TokenVault implementation in the TokenVault & Security
Design document (the class with `refreshPromises : Map<string,
Promise<TokenData>>`, `getValidToken` and `refreshToken`).  Under the
single-threaded event loop, interleaving happens only at `await` points,
so a `getValidToken` call consists of two atomic segments:

* entry (up to the first `await`): the circuit check, the
  `refreshPromises.get(key)` check — returning the existing promise if one
  is registered — and initiating the awaited `getTokenRecord` read;
* resumption (after the record read resolves): decrypt, the expiry check
  and, when expired, the call into `refreshToken` — whose async body runs
  synchronously up to `await refreshFunction(tokenData)`, so the
  underlying refresh request is issued and `refreshPromises.set(key, ...)`
  registers the promise within this same segment.

The `finally` clause of the refresh body deletes the map entry when the
refresh settles.  The awaited DB read, the decrypt and the expiry test are
external to the map bookkeeping; the `expired` oracle gives the expiry
test's outcome per key (a missing record throws before any refresh and is
not modelled; `storeToken`'s effects on the records are irrelevant to the
request counting here).  Each created refresh promise carries a fresh
numeric id so that "awaits that same refresh" is expressible. -/

/-- Phase of one `getValidToken` call in the embedded vault: not yet
started; suspended at the awaited record read; returned an existing
in-flight refresh promise; issued and registered its own refresh; returned
a still-valid token; or rejected by the open circuit. -/
inductive CallPhase
  | notStarted
  | awaitingRecord
  | attachedTo (pid : Nat)
  | issuedRefresh (pid : Nat)
  | returnedValid
  | failedCircuitOpen
deriving DecidableEq, Repr

/-- Event-loop events of the embedded vault: run the entry segment of call
`i`, run the resumption segment of call `i`, or settle the registered
refresh for a key (its `finally` deletes the map entry). -/
inductive VaultEvent
  | start (i : Nat)
  | resume (i : Nat)
  | finish (key : String)
deriving DecidableEq, Repr

/-- State of the embedded vault: the `refreshPromises` map (key to promise
id), the log of underlying `refreshFunction` invocations, the next fresh
promise id, the keys whose circuit is open, and each call's key and phase. -/
structure VaultRun where
  promises : List (String × Nat)
  requests : List String
  nextId : Nat
  circuitOpenKeys : List String
  calls : List (String × CallPhase)
deriving DecidableEq, Repr

/-- One event of the embedded vault, mirroring the source segments: the
entry segment checks the circuit, then `refreshPromises.get(key)` —
attaching to an existing promise — and otherwise suspends at the record
read; the resumption segment, on an expired token, issues the underlying
refresh request and registers the promise (`Map.set` overwrites), in one
atomic segment, with no re-check of the map after the await. -/
def vaultStep (expired : String → Bool) (st : VaultRun) :
    VaultEvent → VaultRun
  | .start i =>
    match st.calls.get? i with
    | some (key, .notStarted) =>
      if st.circuitOpenKeys.contains key then
        { st with calls := st.calls.set i (key, .failedCircuitOpen) }
      else
        match st.promises.lookup key with
        | some pid => { st with calls := st.calls.set i (key, .attachedTo pid) }
        | none => { st with calls := st.calls.set i (key, .awaitingRecord) }
    | _ => st
  | .resume i =>
    match st.calls.get? i with
    | some (key, .awaitingRecord) =>
      if expired key then
        { promises := objSet st.promises key st.nextId,
          requests := key :: st.requests,
          nextId := st.nextId + 1,
          circuitOpenKeys := st.circuitOpenKeys,
          calls := st.calls.set i (key, .issuedRefresh st.nextId) }
      else
        { st with calls := st.calls.set i (key, .returnedValid) }
    | _ => st
  | .finish key =>
    { st with promises := st.promises.filter (fun kv => kv.1 != key) }

/-- Fresh vault with one pending `getValidToken` call per listed key. -/
def initVaultRun (callKeys : List String) : VaultRun :=
  { promises := [], requests := [], nextId := 0, circuitOpenKeys := [],
    calls := callKeys.map (fun k => (k, CallPhase.notStarted)) }

/-- Run a schedule of event-loop events from a fresh vault. -/
def runVault (expired : String → Bool) (callKeys : List String)
    (sched : List VaultEvent) : VaultRun :=
  sched.foldl (vaultStep expired) (initVaultRun callKeys)

/-! ## Theorems settling the specification claims -/

/-- Reachability invariant: whenever the entry is open or half-open, its
failure counter is at least 3. -/
theorem cbreach_nonclosed_count {s : Option Circuit} (h : CBReach s) :
    ∀ c : Circuit, s = some c → (c.state = .opened ∨ c.state = .halfOpen) →
      3 ≤ c.failureCount := by
  induction h with
  | init => intro c hc; cases hc
  | fail t _ ih =>
    rename_i s _
    intro c hc hst
    rcases s with _ | c0
    · simp only [recordFailure, Option.getD_none] at hc
      split at hc
      · cases hc
        rename_i h3
        exact h3
      · cases hc
        rcases hst with h | h <;> simp at h
    · simp only [recordFailure, Option.getD_some] at hc
      split at hc
      · cases hc
        rename_i h3
        exact h3
      · cases hc
        exact Nat.le_succ_of_le (ih c0 rfl hst)
  | succ _ ih =>
    rename_i s _
    intro c hc hst
    rcases s with _ | c0
    · cases hc
    · simp only [recordSuccess] at hc
      split at hc
      · cases hc
        rcases hst with h | h <;> simp at h
      · cases hc
        exact ih c rfl hst
  | check t _ ih =>
    rename_i s _
    intro c hc hst
    rcases s with _ | c0
    · cases hc
    · simp only [checkCircuitBreaker] at hc
      split at hc
      · cases hc
        exact ih c rfl hst
      · split at hc
        · cases hc
          rename_i hopen _
          exact ih c0 rfl (Or.inl hopen)
        · cases hc
          exact ih c rfl hst
      · cases hc
        exact ih c rfl hst

/-- C4: starting with no circuit entry (the closed behaviour), exactly 3
consecutive recorded failures open the breaker — after 2 it is still
closed; a recorded success in the half-open state returns it to closed and
zeroes the failure counter; and in any reachable half-open state a recorded
failure reopens the breaker with a fresh 30-second cool-down window. -/
theorem c4_circuit_breaker_transitions :
    (∀ t1 t2 t3 : Nat,
      (∃ c, recordFailure t3 (recordFailure t2 (recordFailure t1 none)) = some c ∧
        c.state = .opened) ∧
      (∃ c, recordFailure t2 (recordFailure t1 none) = some c ∧ c.state = .closed)) ∧
    (∀ c : Circuit, c.state = .halfOpen →
      recordSuccess (some c) = some { c with state := .closed, failureCount := 0 }) ∧
    (∀ (c : Circuit) (t : Nat), CBReach (some c) → c.state = .halfOpen →
      ∃ c2, recordFailure t (some c) = some c2 ∧ c2.state = .opened ∧
        c2.nextAttempt = t + 30000) := by
  refine ⟨?_, ?_, ?_⟩
  · intro t1 t2 t3
    constructor
    · exact ⟨_, rfl, rfl⟩
    · exact ⟨_, rfl, rfl⟩
  · intro c hc
    simp only [recordSuccess]
    rw [if_pos (Or.inl hc)]
  · intro c t hreach hc
    have h3 : 3 ≤ c.failureCount := cbreach_nonclosed_count hreach c rfl (Or.inr hc)
    simp only [recordFailure, Option.getD_some]
    split
    · exact ⟨_, rfl, rfl, rfl⟩
    · rename_i hlt
      exact absurd (Nat.le_succ_of_le h3) hlt

/-- C4 witness: the three parts of `c4_circuit_breaker_transitions`
instantiated at concrete inputs — failures recorded at times 0, 1, 2 and a
half-open circuit reached by three failures followed by a breaker check at
time 30002. -/
theorem c4_circuit_breaker_transitions_witness :
    (∃ c, recordFailure 2 (recordFailure 1 (recordFailure 0 none)) = some c ∧
      c.state = .opened) ∧
    recordSuccess (some ⟨.halfOpen, 3, 2, 30002⟩) = some ⟨.closed, 0, 2, 30002⟩ ∧
    (∃ c2, recordFailure 40000 (some ⟨.halfOpen, 3, 2, 30002⟩) = some c2 ∧
      c2.state = .opened ∧ c2.nextAttempt = 70000) := by
  have hreach : CBReach (some (⟨.halfOpen, 3, 2, 30002⟩ : Circuit)) := by
    have h := CBReach.check 30002
      (CBReach.fail 2 (CBReach.fail 1 (CBReach.fail 0 CBReach.init)))
    have e : (checkCircuitBreaker 30002
        (recordFailure 2 (recordFailure 1 (recordFailure 0 none)))).2 =
        some (⟨.halfOpen, 3, 2, 30002⟩ : Circuit) := by decide
    exact e ▸ h
  refine ⟨(c4_circuit_breaker_transitions.1 0 1 2).1, ?_, ?_⟩
  · exact c4_circuit_breaker_transitions.2.1 ⟨.halfOpen, 3, 2, 30002⟩ rfl
  · exact c4_circuit_breaker_transitions.2.2 ⟨.halfOpen, 3, 2, 30002⟩ 40000 hreach rfl

/-- C5 counterexample: a recorded success while the breaker is closed with a
failure count of 2 leaves the entry — including the nonzero counter —
completely unchanged, so "failure counter is zero after any success" fails. -/
theorem c5_success_closed_counterexample :
    recordSuccess (some ⟨.closed, 2, 5, 7⟩) = some ⟨.closed, 2, 5, 7⟩ ∧
    (Option.map Circuit.failureCount (recordSuccess (some ⟨.closed, 2, 5, 7⟩)) ≠
      some 0) := by
  decide

/-- C5 amended: after a recorded success the breaker never blocks — a success
while open or half-open resets the entry to closed with a zero failure
counter, but a success while closed (or with no entry) leaves the entry
unchanged, so a nonzero failure counter persists. -/
theorem c5_success_reset_amended :
    recordSuccess none = none ∧
    (∀ c : Circuit, c.state = .opened ∨ c.state = .halfOpen →
      recordSuccess (some c) = some { c with state := .closed, failureCount := 0 }) ∧
    (∀ c : Circuit, c.state = .closed → recordSuccess (some c) = some c) := by
  refine ⟨rfl, ?_, ?_⟩
  · intro c hc
    simp only [recordSuccess]
    rw [if_pos hc.symm]
  · intro c hc
    simp only [recordSuccess]
    rw [if_neg (by simp [hc])]

/-- C5 amended witness: `c5_success_reset_amended` instantiated at an open
circuit with 3 failures and at a closed circuit with 2 failures. -/
theorem c5_success_reset_amended_witness :
    recordSuccess (some ⟨.opened, 3, 1, 9⟩) = some ⟨.closed, 0, 1, 9⟩ ∧
    recordSuccess (some ⟨.closed, 2, 5, 7⟩) = some ⟨.closed, 2, 5, 7⟩ :=
  ⟨c5_success_reset_amended.2.1 ⟨.opened, 3, 1, 9⟩ (Or.inl rfl),
   c5_success_reset_amended.2.2 ⟨.closed, 2, 5, 7⟩ rfl⟩

/-- XOR-ing against the same keystream twice restores the byte string. -/
theorem xorStream_xorStream (k : KeyMaterial) (iv : Nat) :
    ∀ (i : Nat) (bs : List Nat), xorStream k iv i (xorStream k iv i bs) = bs := by
  intro i bs
  induction bs generalizing i with
  | nil => rfl
  | cons b bs ih => simp [xorStream, Nat.xor_cancel_right, ih]

/-- Bytes of an XOR-stream output stay below 256 when the input bytes do. -/
theorem xorStream_bytes_lt (k : KeyMaterial) (iv : Nat) :
    ∀ (i : Nat) (bs : List Nat), (∀ b ∈ bs, b < 256) →
      ∀ b2 ∈ xorStream k iv i bs, b2 < 256 := by
  intro i bs
  induction bs generalizing i with
  | nil => intro _ b2 hb2; cases hb2
  | cons b bs ih =>
    intro h b2 hb2
    rcases hb2 with _ | ⟨_, hb2⟩
    · have hb : b < 256 := h b (List.mem_cons_self b bs)
      have hk : keystreamByte k iv i < 256 := Nat.mod_lt _ (by omega)
      have : (256 : Nat) = 2 ^ 8 := by norm_num
      rw [this] at hb hk ⊢
      exact Nat.xor_lt_two_pow hb hk
    · exact ih (i + 1) (fun x hx => h x (List.mem_cons_of_mem _ hx)) b2 hb2

/-- Value bound for byte strings: 16 bytes below 256 encode below `2 ^ 128`. -/
theorem bytesToNat_lt (l : List Nat) (h : ∀ b ∈ l, b < 256) :
    bytesToNat l < 256 ^ l.length := by
  induction l with
  | nil => simp [bytesToNat]
  | cons b bs ih =>
    have hb : b < 256 := h b (List.mem_cons_self b bs)
    have hbs : bytesToNat bs < 256 ^ bs.length :=
      ih (fun x hx => h x (List.mem_cons_of_mem _ hx))
    simp only [bytesToNat, List.length_cons]
    calc b + 256 * bytesToNat bs < 256 * (bytesToNat bs + 1) := by omega
      _ ≤ 256 * 256 ^ bs.length := Nat.mul_le_mul_left 256 hbs
      _ = 256 ^ (bs.length + 1) := by ring

/-- The legacy decryption path (no salt, no tag) always fails on byte
strings: the peeled-off "tag" is a 16-byte value below `2 ^ 128`, while
every honest tag of the modelled cipher is at least `2 ^ 128`. -/
theorem decrypt_legacy_fails (data : List Nat) (passwordKey : String) (iv : Nat)
    (h : ∀ b ∈ data, b < 256) :
    ∃ msg, decrypt data passwordKey iv none none = .error msg := by
  simp only [decrypt]
  by_cases hlen : TAG_LENGTH < data.length
  · rw [if_pos hlen]
    simp only [gcmDecrypt]
    rw [if_neg]
    · exact ⟨_, rfl⟩
    · intro heq
      have hdrop : ∀ b ∈ data.drop (data.length - TAG_LENGTH), b < 256 :=
        fun b hb => h b (List.mem_of_mem_drop hb)
      have hlt : bytesToNat (data.drop (data.length - TAG_LENGTH)) <
          256 ^ (data.drop (data.length - TAG_LENGTH)).length :=
        bytesToNat_lt _ hdrop
      have hlen16 : (data.drop (data.length - TAG_LENGTH)).length = TAG_LENGTH := by
        rw [List.length_drop]
        omega
      rw [hlen16] at hlt
      have h2 : (256 : Nat) ^ TAG_LENGTH = 2 ^ 128 := by decide
      rw [h2, heq] at hlt
      exact absurd hlt (Nat.not_lt.mpr (Nat.le_add_right _ _))
  · rw [if_neg hlen]
    exact ⟨_, rfl⟩

/-- C9: the encryption primitive round-trips — decrypting the ciphertext
produced by `encrypt` with the same password and the iv, salt and tag that
`encrypt` returned yields exactly the original plaintext. -/
theorem c9_encrypt_decrypt_roundtrip (plaintext : List Nat)
    (passwordKey : String) (salt iv : Nat) :
    decrypt (encrypt plaintext passwordKey salt iv).encryptedData passwordKey
      (encrypt plaintext passwordKey salt iv).iv
      (some (encrypt plaintext passwordKey salt iv).salt)
      (some (encrypt plaintext passwordKey salt iv).tag) = .ok plaintext := by
  simp only [encrypt, decrypt, gcmDecrypt, if_pos rfl]
  rw [if_pos trivial, xorStream_xorStream]

/-- Supporting lemma for the store/get round trip: the freshly inserted row
is found, its ciphertext is decrypted along the salt-less legacy path, and
that always fails — for every user, provider, credential byte string and
key, provided no earlier valid row shadows the fresh one. -/
theorem store_then_get_always_fails (u p ct ekey nid : String)
    (credentials : List Nat) (salt iv now : Nat)
    (db : List StoredTokenData)
    (hbytes : ∀ b ∈ credentials, b < 256)
    (hfresh : db.find? (fun r =>
      r.userId == u && r.providerId == p && r.isValid) = none) :
    getValidToken u p ekey (storeToken u p ct credentials ekey nid salt iv now db) =
      .error "Failed to retrieve or decrypt token." := by
  simp only [getValidToken, storeToken, List.find?_append, hfresh, Option.none_or]
  rw [List.find?_cons_of_pos _ (by simp)]
  have hct : ∀ b ∈ (encrypt credentials ekey salt iv).encryptedData, b < 256 :=
    xorStream_bytes_lt _ _ 0 credentials hbytes
  obtain ⟨msg, hmsg⟩ := decrypt_legacy_fails
    (encrypt credentials ekey salt iv).encryptedData ekey iv hct
  simp only [encrypt] at hmsg ⊢
  rw [hmsg]

/-- C1: the store-then-retrieve round trip is refuted at a concrete input.
`storeToken` discards the salt and tag that `encrypt` returns, so
`getValidToken` decrypts along the salt-less legacy path — with a key
derived differently (sha256 instead of PBKDF2-with-the-lost-salt) and a
"tag" peeled off the ciphertext tail — and throws instead of returning the
stored credential. -/
theorem c1_store_get_roundtrip_fails :
    getValidToken "user1" "openai" "pw"
      (storeToken "user1" "openai" "api_key"
        [1, 2, 3, 4, 5, 6, 7, 8, 9, 10, 11, 12, 13, 14, 15, 16, 17, 18, 19, 20]
        "pw" "id1" 7 9 42 []) =
      .error "Failed to retrieve or decrypt token." := by
  apply store_then_get_always_fails <;> decide

/-- C7: flipping any single byte of the stored encrypted payload makes the
subsequent `getValidToken` fail with the decryption-failure error; the
corrupted plaintext is never returned. -/
theorem c7_tamper_rejected (u p ct ekey nid : String)
    (credentials : List Nat) (salt iv now i b2 : Nat)
    (hbytes : ∀ b ∈ credentials, b < 256)
    (hb2 : b2 < 256)
    (hi : i < (encrypt credentials ekey salt iv).encryptedData.length)
    (hdiff : (encrypt credentials ekey salt iv).encryptedData.get? i ≠ some b2) :
    getValidToken u p ekey
      ((storeToken u p ct credentials ekey nid salt iv now []).map
        (tamperByte i b2)) =
      .error "Failed to retrieve or decrypt token." := by
  simp only [storeToken, List.nil_append, List.map_cons, List.map_nil,
    getValidToken]
  rw [List.find?_cons_of_pos _ (by simp [tamperByte])]
  have hct : ∀ b ∈ (encrypt credentials ekey salt iv).encryptedData, b < 256 :=
    xorStream_bytes_lt _ _ 0 credentials hbytes
  have hset : ∀ b ∈ (encrypt credentials ekey salt iv).encryptedData.set i b2,
      b < 256 := by
    intro b hb
    rcases List.mem_or_eq_of_mem_set hb with h | rfl
    · exact hct b h
    · exact hb2
  obtain ⟨msg, hmsg⟩ := decrypt_legacy_fails _ ekey iv hset
  simp only [tamperByte, encrypt] at hmsg ⊢
  rw [hmsg]

/-- C7 witness: `c7_tamper_rejected` applied to a concrete 20-byte
credential with byte 3 of the stored ciphertext flipped to 0. -/
theorem c7_tamper_rejected_witness :
    getValidToken "user1" "openai" "pw"
      ((storeToken "user1" "openai" "api_key"
        [1, 2, 3, 4, 5, 6, 7, 8, 9, 10, 11, 12, 13, 14, 15, 16, 17, 18, 19, 20]
        "pw" "id1" 7 9 42 []).map (tamperByte 3 0)) =
      .error "Failed to retrieve or decrypt token." := by
  apply c7_tamper_rejected <;> decide

/-- Unfolding step for `listTokens`. -/
theorem listTokens_cons (u k : String) (r : StoredTokenData)
    (db : List StoredTokenData) :
    listTokens u k (r :: db) =
      if r.userId == u then toTokenMetadata r :: listTokens u k db
      else listTokens u k db := by
  simp only [listTokens, List.filter_cons]
  split <;> simp

/-- C10: `listTokens` is independent of its `encryptionKey` argument, and
its output is invariant under arbitrary rewrites of every row's ciphertext
and IV — it exposes only the metadata projection of the matching rows,
never the `encryptedCredentials` content and nothing decrypted. -/
theorem c10_listTokens_metadata_only (u k1 k2 : String)
    (db : List StoredTokenData)
    (newCipher : StoredTokenData → List Nat) (newIv : StoredTokenData → Nat) :
    listTokens u k1 db = listTokens u k2 db ∧
    listTokens u k1 (db.map (fun r =>
      { r with encryptedCredentials := newCipher r, iv := newIv r })) =
      listTokens u k1 db := by
  refine ⟨rfl, ?_⟩
  induction db with
  | nil => rfl
  | cons r db ih =>
    rw [List.map_cons, listTokens_cons, listTokens_cons]
    dsimp only
    rw [ih]
    rfl

/-- C2: the results-keys invariant is refuted at a concrete input.  With
requested models `["browser:chatgpt"]`, a failing primary and a succeeding
fallback, the fallback response is stored under the fallback model's key:
`results` ends with the extra key `"openai:gpt-3.5-turbo"`, the requested
slot stays pending forever, and the job promise never settles. -/
theorem c2_results_keys_counterexample :
    (runHybridPrompt c2Oracle "user1" "say hi" ["browser:chatgpt"]
        ["browser:chatgpt"] "job1").ctx.results.map Prod.fst =
      ["browser:chatgpt", "openai:gpt-3.5-turbo"] ∧
    (runHybridPrompt c2Oracle "user1" "say hi" ["browser:chatgpt"]
        ["browser:chatgpt"] "job1").ctx.requestedModels = ["browser:chatgpt"] ∧
    (runHybridPrompt c2Oracle "user1" "say hi" ["browser:chatgpt"]
        ["browser:chatgpt"] "job1").ctx.results.lookup "browser:chatgpt" =
      some SlotResult.pending ∧
    (runHybridPrompt c2Oracle "user1" "say hi" ["browser:chatgpt"]
        ["browser:chatgpt"] "job1").settled = none := by
  decide

/-- C3: the partial-success claim is order-dependent, refuting "regardless
of the order in which the per-model results arrive".  Same job, same
oracle: when the two successes are recorded first, the job completes with
exactly the 2 successful outputs as synthesis input; when the non-critical
model's terminal failure is recorded first, `shouldFailJob` sees zero
successes so far and the job is rejected immediately. -/
theorem c3_partial_success_order_dependent :
    (runHybridPrompt c3Oracle "u" "pr"
        ["modelA", "anthropic:claude-sonnet", "modelC"]
        ["modelA", "modelC", "anthropic:claude-sonnet"] "j1").settled.map
      (Except.map (fun c => (c.status, c.synthesisInput))) =
      some (.ok (JobStatus.completed, [("modelA", "alpha"), ("modelC", "gamma")])) ∧
    (runHybridPrompt c3Oracle "u" "pr"
        ["modelA", "anthropic:claude-sonnet", "modelC"]
        ["anthropic:claude-sonnet", "modelA", "modelC"] "j1").settled =
      some (.error "Critical model anthropic:claude-sonnet failed: boom") := by
  decide

/-- C6: rejected-invalid-request is refuted at a concrete input.  With an
empty model list and an empty prompt, `runHybridPrompt` still inserts the
job record and the job runs to completion through an empty fan-out and a
synthesis call — no `InvalidRequest` rejection exists in the code. -/
theorem c6_no_validation_counterexample :
    (runHybridPrompt c6Oracle "user1" "" [] [] "job6").promptLogInserted = true ∧
    (runHybridPrompt c6Oracle "user1" "" [] [] "job6").settled.map
      (Except.map (fun c => c.status)) = some (.ok JobStatus.completed) := by
  decide

/-- C6 amended: `runHybridPrompt` performs no input validation at all — for
every oracle whose synthesis model answers, every user and every prompt
(including the empty one), the run with an empty `requestedModels` inserts
the job record and completes with an empty synthesis input instead of
rejecting with `InvalidRequest`. -/
theorem c6_no_validation_amended (oracle : String → Except String ModelResponse)
    (u pt jid : String) (resp : ModelResponse)
    (h : oracle "openai:gpt-4" = .ok resp) :
    (runHybridPrompt oracle u pt [] [] jid).promptLogInserted = true ∧
    (runHybridPrompt oracle u pt [] [] jid).settled.map
      (Except.map (fun c => (c.status, c.synthesisInput))) =
      some (.ok (JobStatus.completed, [])) := by
  simp only [runHybridPrompt, fanOutToModels, List.foldl_nil,
    startSynthesis, h, resolveSynth]
  constructor
  · rfl
  · rfl

/-- C6 amended witness: `c6_no_validation_amended` applied to the concrete
`c6Oracle` with the empty prompt and empty model list. -/
theorem c6_no_validation_amended_witness :
    (runHybridPrompt c6Oracle "u2" "" [] [] "job7").promptLogInserted = true ∧
    (runHybridPrompt c6Oracle "u2" "" [] [] "job7").settled.map
      (Except.map (fun c => (c.status, c.synthesisInput))) =
      some (.ok (JobStatus.completed, [])) :=
  c6_no_validation_amended c6Oracle "u2" "" "job7"
    ⟨"synthesis of nothing", "openai", "gpt-4"⟩ rfl

/-- C8 counterexample: two concurrent `getValidToken` calls for one key on
an expired token, both of whose entry segments run before either
resumption — each passes the `refreshPromises` check (no refresh is
registered yet), and each resumption then issues its own underlying
refresh request and registers its own promise, so two refresh requests are
issued to the provider, not exactly one, and the two callers await
different refreshes. -/
theorem c8_refresh_duplicate_counterexample :
    (runVault (fun _ => true) ["u1|openai", "u1|openai"]
        [.start 0, .start 1, .resume 0, .resume 1]).requests.count
      "u1|openai" = 2 ∧
    (runVault (fun _ => true) ["u1|openai", "u1|openai"]
        [.start 0, .start 1, .resume 0, .resume 1]).calls =
      [("u1|openai", .issuedRefresh 0), ("u1|openai", .issuedRefresh 1)] := by
  decide

/-- C8 amended: a `getValidToken` call whose entry segment runs while a
refresh for its key is registered in `refreshPromises` (and the circuit is
not open) observes and awaits that same in-flight refresh, issuing no
refresh request of its own and leaving the promise map and the request log
unchanged; only calls whose entry check ran before any registration — the
check and the registration are separated by the awaited record read — can
issue duplicate refresh requests. -/
theorem c8_refresh_attach_amended (expired : String → Bool) (st : VaultRun)
    (i : Nat) (key : String) (pid : Nat)
    (hcall : st.calls.get? i = some (key, .notStarted))
    (hcirc : st.circuitOpenKeys.contains key = false)
    (hpid : st.promises.lookup key = some pid) :
    vaultStep expired st (.start i) =
      { st with calls := st.calls.set i (key, .attachedTo pid) } ∧
    (vaultStep expired st (.start i)).requests = st.requests ∧
    (vaultStep expired st (.start i)).promises = st.promises ∧
    (vaultStep expired st (.start i)).calls.get? i =
      some (key, .attachedTo pid) := by
  have hstep : vaultStep expired st (.start i) =
      { st with calls := st.calls.set i (key, .attachedTo pid) } := by
    simp only [vaultStep, hcall, hcirc, hpid]
    rfl
  refine ⟨hstep, by rw [hstep], by rw [hstep], ?_⟩
  rw [hstep]
  have hi : i < st.calls.length := by
    by_contra hge
    rw [List.get?_eq_none.mpr (by omega)] at hcall
    cases hcall
  simp [List.get?_eq_getElem?, List.getElem?_set, hi]

/-- C8 amended witness: `c8_refresh_attach_amended` applied to a vault
where call 0 has issued and registered refresh promise 0 and call 1 then
runs its entry segment. -/
theorem c8_refresh_attach_amended_witness :
    vaultStep (fun _ => true)
      { promises := [("u1|openai", 0)], requests := ["u1|openai"],
        nextId := 1, circuitOpenKeys := [],
        calls := [("u1|openai", .issuedRefresh 0), ("u1|openai", .notStarted)] }
      (.start 1) =
      { promises := [("u1|openai", 0)], requests := ["u1|openai"],
        nextId := 1, circuitOpenKeys := [],
        calls := [("u1|openai", .issuedRefresh 0),
                  ("u1|openai", .attachedTo 0)] } ∧
    (vaultStep (fun _ => true)
      { promises := [("u1|openai", 0)], requests := ["u1|openai"],
        nextId := 1, circuitOpenKeys := [],
        calls := [("u1|openai", .issuedRefresh 0), ("u1|openai", .notStarted)] }
      (.start 1)).requests = ["u1|openai"] := by
  have h := c8_refresh_attach_amended (fun _ => true)
    { promises := [("u1|openai", 0)], requests := ["u1|openai"],
      nextId := 1, circuitOpenKeys := [],
      calls := [("u1|openai", .issuedRefresh 0), ("u1|openai", .notStarted)] }
    1 "u1|openai" 0 rfl rfl rfl
  exact ⟨h.1, h.2.1⟩
